import Mathlib

/-
Verification of the FinalPrisma e-commerce backend (TypeScript + Prisma ORM).

The development shallowly embeds the data model (prisma/schema.prisma) and the
service methods relevant to the verified properties:
  - ProductService.calcularPrecioFinal (discount window pricing),
  - OrderDetailService.create / findAll / delete / reactivate,
  - OrderService.crear,
  - ProductDetailService.findById / delete,
  - ProductService.obtenerTodosLosProductosDTO,
  - UserService.reactivateAccount / removeDireccionFromUser.

Databases are modelled as lists of rows per table.  A service call is embedded
as a pure "plan" phase (the reads and validations, which in every embedded
method precede all writes in the source) returning either an error or a result
value together with the ordered list of database writes the method then issues.
Writes are grouped into atomic units: a `WriteUnit.single` is one prisma
call outside any transaction, a `WriteUnit.tx` is a `prisma.$transaction`
block.  Executing the writes is parameterised by a fault schedule (the set of
write indices at which the database fails), so that rollback behaviour of
transactions versus bare writes can be stated; the normal run uses the empty
schedule.  JavaScript floating point numbers are idealised as rationals and
timestamps as integers (milliseconds).
-/

deriving instance DecidableEq for Except

namespace FinalPrisma

/-- Roles, from enum Rol in prisma/schema.prisma. -/
inductive Rol where
  | ADMIN : Rol
  | CLIENTE : Rol
deriving DecidableEq

/-- Authenticated user attached to a request (src/types/auth.d.ts). -/
structure AuthUser where
  id : Nat
  rol : Rol
deriving DecidableEq

/-- Row of `producto_detalle` (model ProductoDetalle): a product variant.
Columns not read or written by the embedded services (cantidad, stockMaximo,
color, talle, productoId) are omitted. -/
structure ProductoDetalle where
  id : Nat
  activo : Bool
  precioCompra : ℚ
  stockActual : Int
deriving DecidableEq

/-- Row of `orden_compra` (model OrdenCompra).  `usuarioId` is kept optional
because OrderDetailService.create guards against a missing related user. -/
structure OrdenCompra where
  id : Nat
  activo : Bool
  total : ℚ
  fechaCompra : Nat
  direccionEnvio : String
  usuarioId : Option Nat
deriving DecidableEq

/-- Row of `orden_compra_detalle` (model OrdenCompraDetalle): an order line. -/
structure OrdenCompraDetalle where
  id : Nat
  activo : Bool
  cantidad : Int
  subtotal : ℚ
  ordenCompraId : Nat
  productoDetalleId : Nat
deriving DecidableEq

/-- Row of `descuentos` (model Descuento).  The four window columns are kept
as optional millisecond timestamps (the raw values stored in the DateTime /
Time columns); `ProductService.calcularPrecioFinal` derives day starts and
seconds-of-day from them exactly as the source does.  Columns denominacion and
descripcionDescuento are omitted (never read by the embedded services). -/
structure Descuento where
  id : Nat
  activo : Bool
  fechaDesde : Option Int
  fechaHasta : Option Int
  horaDesde : Option Int
  horaHasta : Option Int
  precioPromocional : ℚ
deriving DecidableEq

/-- Row of `productos` (model Producto), with its many-to-many `descuentos`
relation materialised inline (the embedded product queries always
`include: { descuentos: true }`).  Relation columns categorias, imagenes and
productos_detalles as well as sexo are omitted: the verified properties do not
read them. -/
structure Producto where
  id : Nat
  activo : Bool
  denominacion : String
  precioVenta : ℚ
  tienePromocion : Bool
  descuentos : List Descuento
deriving DecidableEq

/-- Row of `usuarios` (model Usuario), restricted to the columns read or
written by UserService.reactivateAccount and removeDireccionFromUser. -/
structure Usuario where
  id : Nat
  activo : Bool
  email : String
  userName : Option String
  rol : Rol
  fechaBaja : Option Nat
  fechaModificacion : Nat
deriving DecidableEq

/-- Row of `direcciones` (model Direccion), restricted to the columns the
embedded address operations touch. -/
structure Direccion where
  id : Nat
  activo : Bool
  calle : String
  numero : Int
  cp : Int
  localidadId : Nat
  usuarioId : Option Nat
deriving DecidableEq

/-- The relational database state: one list of rows per table, plus the
auto-increment counter used for fresh primary keys. -/
structure DB where
  usuarios : List Usuario
  productos : List Producto
  productoDetalles : List ProductoDetalle
  ordenCompras : List OrdenCompra
  ordenCompraDetalles : List OrdenCompraDetalle
  direcciones : List Direccion
  nextId : Nat
deriving DecidableEq

/-- An atomic unit of writes: either a bare prisma write call, or a
`prisma.$transaction` block (all-or-nothing). -/
inductive WriteUnit where
  | single : (DB → DB) → WriteUnit
  | tx : List (DB → DB) → WriteUnit

/-- Runs the writes of a transaction body in order; each write consumes one
tick of the global write counter and fails when the fault schedule contains
its tick.  Returns the error (if any), the database reached, and the next
counter value. -/
def execTx (db : DB) (fs : List (DB → DB)) (n : Nat) (failAt : List Nat) :
    Option String × DB × Nat :=
  match fs with
  | [] => (none, db, n)
  | f :: rest =>
      if n ∈ failAt then (some "database write failed", db, n + 1)
      else execTx (f db) rest (n + 1) failAt

/-- Runs a list of write units in order.  A failing bare write leaves the
writes before it persisted; a failure inside a transaction rolls the whole
transaction back, but not the units before it.  After any failure the
service aborts: later units are not attempted. -/
def execUnits (db : DB) (units : List WriteUnit) (n : Nat) (failAt : List Nat) :
    Option String × DB :=
  match units with
  | [] => (none, db)
  | WriteUnit.single f :: rest =>
      if n ∈ failAt then (some "database write failed", db)
      else execUnits (f db) rest (n + 1) failAt
  | WriteUnit.tx fs :: rest =>
      match execTx db fs n failAt with
      | (some e, _, _) => (some e, db)
      | (none, db2, n2) => execUnits db2 rest n2 failAt

/-- Effect of one write unit in a failure-free run. -/
def applyUnit (db : DB) : WriteUnit → DB
  | WriteUnit.single f => f db
  | WriteUnit.tx fs => fs.foldl (fun d f => f d) db

/-- Runs a planned service call against a database under a fault schedule:
a plan error performs no writes; otherwise the writes are executed. -/
def runPlan {α : Type} (r : Except String (α × List WriteUnit)) (db : DB)
    (failAt : List Nat) : Except String α × DB :=
  match r with
  | Except.error e => (Except.error e, db)
  | Except.ok (a, units) =>
      match execUnits db units 0 failAt with
      | (some e, db2) => (Except.error e, db2)
      | (none, db2) => (Except.ok a, db2)

theorem execTx_no_fail (db : DB) (fs : List (DB → DB)) (n : Nat) :
    execTx db fs n [] = (none, fs.foldl (fun d f => f d) db, n + fs.length) := by
  induction fs generalizing db n with
  | nil => simp [execTx]
  | cons f rest ih => simp [execTx, ih]; omega

theorem execUnits_no_fail (db : DB) (units : List WriteUnit) (n : Nat) :
    execUnits db units n [] = (none, units.foldl applyUnit db) := by
  induction units generalizing db n with
  | nil => simp [execUnits]
  | cons u rest ih =>
      cases u with
      | single f => simp [execUnits, ih, applyUnit]
      | tx fs => simp [execUnits, execTx_no_fail, ih, applyUnit]

theorem runPlan_error {α : Type} (e : String) (db : DB) (failAt : List Nat) :
    runPlan (α := α) (Except.error e) db failAt = (Except.error e, db) := rfl

theorem runPlan_ok_no_fail {α : Type} (a : α) (units : List WriteUnit) (db : DB) :
    runPlan (Except.ok (a, units)) db [] =
      (Except.ok a, units.foldl applyUnit db) := by
  simp [runPlan, execUnits_no_fail]

/-- Lookup of a row by a boolean key after a keyed in-place update: updating
every row matching the key with a key-preserving function commutes with
`find?`. -/
theorem find?_update {α : Type} (l : List α) (k : α → Bool) (g : α → α)
    (hg : ∀ a, k (g a) = k a) :
    (l.map (fun a => if k a then g a else a)).find? k = (l.find? k).map g := by
  induction l with
  | nil => simp
  | cons a rest ih =>
      by_cases h : k a = true
      · simp [List.find?, h, hg]
      · simp only [Bool.not_eq_true] at h
        simp [List.find?, h, ih]

-- ==========================================================================
-- Payload types (src/types)
-- ==========================================================================

/-- Payload of OrderDetailService.create
(src/types/orden_compra_detalle.d.ts, CreateOrdenCompraDetallePayload). -/
structure CreateOrdenCompraDetallePayload where
  ordenCompraId : Nat
  productoDetalleId : Nat
  cantidad : Int
deriving DecidableEq

/-- Nested order line of the OrderService.crear payload
(src/types/orden_compra.d.ts, CreateOrdenCompraDetalleNestedPayload). -/
structure CreateOrdenCompraDetalleNestedPayload where
  productoDetalleId : Nat
  cantidad : Int
deriving DecidableEq

/-- Payload of OrderService.crear (src/types/orden_compra.d.ts,
CreateOrdenCompraPayload). -/
structure CreateOrdenCompraPayload where
  detalles : List CreateOrdenCompraDetalleNestedPayload
  direccionEnvio : String
deriving DecidableEq

/-- Product DTO (src/types/product.d.ts), restricted to its scalar fields;
the nested categorias / imagenes / productos_detalles DTO lists are omitted
(not read by the verified properties). -/
structure ProductoDTO where
  id : Nat
  denominacion : String
  precioOriginal : ℚ
  precioFinal : ℚ
  tienePromocion : Bool
deriving DecidableEq

/-- Current stockActual of the product variant with the given id. -/
def stockActualDe (db : DB) (i : Nat) : Option Int :=
  (db.productoDetalles.find? (fun pd => pd.id == i)).map (fun pd => pd.stockActual)

-- ==========================================================================
-- ProductService.calcularPrecioFinal (src/services/product.service.ts)
-- ==========================================================================

/-- JavaScript truthiness test used by the guards in calcularPrecioFinal:
`!x` is true for `null` and for the number `0`. -/
def jsOptFalsy : Option Int → Bool
  | none => true
  | some v => v == 0

namespace ProductService

/-- Millisecond timestamp of the UTC start of day of a stored date, as
computed by `new Date(d).setUTCHours(0, 0, 0, 0)`. -/
def fechaDesdeMs (d : Descuento) : Option Int :=
  d.fechaDesde.map (fun t => t.fdiv 86400000 * 86400000)

/-- Millisecond timestamp of 23:59:59.999 UTC of a stored date, as computed
by `new Date(d).setUTCHours(23, 59, 59, 999)`. -/
def fechaHastaMs (d : Descuento) : Option Int :=
  d.fechaHasta.map (fun t => t.fdiv 86400000 * 86400000 + 86399999)

/-- Seconds of UTC day of a stored time, as computed from getUTCHours,
getUTCMinutes and getUTCSeconds (milliseconds are dropped). -/
def horaSeg (t : Int) : Int := t.emod 86400000 / 1000

/-- Guard of the loop body of calcularPrecioFinal: the evaluation instant
(`hoySoloFecha` = local-midnight timestamp, `horaActualSegundos` = seconds of
local day) lies inside the date window and the time window of the discount.
Per the source, a `null` bound and a bound whose computed number is `0` are
both treated as absent (JavaScript falsiness). -/
def descuentoAplica (hoySoloFecha horaActualSegundos : Int) (d : Descuento) : Bool :=
  let fechaDesde := fechaDesdeMs d
  let fechaHasta := fechaHastaMs d
  let horaDesdeSegundos := d.horaDesde.map horaSeg
  let horaHastaSegundos := d.horaHasta.map horaSeg
  let fechaValida :=
    (jsOptFalsy fechaDesde || decide (fechaDesde.getD 0 ≤ hoySoloFecha)) &&
    (jsOptFalsy fechaHasta || decide (hoySoloFecha ≤ fechaHasta.getD 0))
  let horaValida :=
    (jsOptFalsy horaDesdeSegundos || decide (horaDesdeSegundos.getD 0 ≤ horaActualSegundos)) &&
    (jsOptFalsy horaHastaSegundos || decide (horaActualSegundos ≤ horaHastaSegundos.getD 0))
  fechaValida && horaValida

/-- Promotional price evaluation (ProductService.calcularPrecioFinal).  The
clock reads `new Date()` of the source are abstracted into the two arguments
`hoySoloFecha` and `horaActualSegundos`.  Starting from precioVenta, every
discount whose window contains the instant lowers the running price to
`precioVenta * (1 - precioPromocional)` whenever that is strictly lower. -/
def calcularPrecioFinal (hoySoloFecha horaActualSegundos : Int) (producto : Producto) : ℚ :=
  let precioActual := producto.precioVenta
  if !producto.tienePromocion || producto.descuentos.length == 0 then
    precioActual
  else
    producto.descuentos.foldl
      (fun precioConDescuentoMasAlto d =>
        if descuentoAplica hoySoloFecha horaActualSegundos d then
          let precioAplicandoEsteDescuento := precioActual * (1 - d.precioPromocional)
          if precioAplicandoEsteDescuento < precioConDescuentoMasAlto then
            precioAplicandoEsteDescuento
          else precioConDescuentoMasAlto
        else precioConDescuentoMasAlto)
      precioActual

/-- Prices obtained by applying each discount whose window contains the
instant: the candidates among which calcularPrecioFinal picks. -/
def preciosAplicables (hoySoloFecha horaActualSegundos : Int) (producto : Producto) : List ℚ :=
  (producto.descuentos.filter (descuentoAplica hoySoloFecha horaActualSegundos)).map
    (fun d => producto.precioVenta * (1 - d.precioPromocional))

end ProductService

section PrecioLemmas

open ProductService

theorem if_lt_eq_min (a x : ℚ) : (if x < a then x else a) = min a x := by
  rcases lt_or_le x a with h | h
  · rw [if_pos h, min_eq_right (le_of_lt h)]
  · rw [if_neg (not_lt.2 h), min_eq_left h]

theorem fold_precio_eq_fold_min (hoy hora : Int) (V : ℚ) (l : List Descuento) (acc : ℚ) :
    l.foldl
      (fun precioConDescuentoMasAlto d =>
        if descuentoAplica hoy hora d then
          if V * (1 - d.precioPromocional) < precioConDescuentoMasAlto then
            V * (1 - d.precioPromocional)
          else precioConDescuentoMasAlto
        else precioConDescuentoMasAlto) acc =
    ((l.filter (descuentoAplica hoy hora)).map
      (fun d => V * (1 - d.precioPromocional))).foldl min acc := by
  have hf : (fun (precioConDescuentoMasAlto : ℚ) (d : Descuento) =>
      if descuentoAplica hoy hora d then
        if V * (1 - d.precioPromocional) < precioConDescuentoMasAlto then
          V * (1 - d.precioPromocional)
        else precioConDescuentoMasAlto
      else precioConDescuentoMasAlto) =
      (fun (acc2 : ℚ) (d : Descuento) =>
        if descuentoAplica hoy hora d then min acc2 (V * (1 - d.precioPromocional))
        else acc2) := by
    funext acc2 d
    by_cases h : descuentoAplica hoy hora d = true
    · simp [h, if_lt_eq_min]
    · simp only [Bool.not_eq_true] at h
      simp [h]
  rw [hf]
  induction l generalizing acc with
  | nil => rfl
  | cons d rest ih =>
      by_cases h : descuentoAplica hoy hora d = true
      · rw [List.foldl_cons, List.filter_cons_of_pos h, List.map_cons, List.foldl_cons]
        simp only [h, if_true]
        exact ih (min acc (V * (1 - d.precioPromocional)))
      · have h2 : ¬(descuentoAplica hoy hora d = true) := h
        simp only [Bool.not_eq_true] at h
        rw [List.foldl_cons, List.filter_cons_of_neg h2]
        simp only [h, Bool.false_eq_true, if_false]
        exact ih acc

theorem foldl_min_le_init (l : List ℚ) (acc : ℚ) : l.foldl min acc ≤ acc := by
  induction l generalizing acc with
  | nil => exact le_refl _
  | cons x rest ih =>
      exact le_trans (ih (min acc x)) (min_le_left _ _)

theorem foldl_min_le_mem :
    ∀ (l : List ℚ) (b : ℚ), b ∈ l → ∀ acc : ℚ, l.foldl min acc ≤ b := by
  intro l
  induction l with
  | nil => intro b hb; cases hb
  | cons x rest ih =>
      intro b hb acc
      rcases List.mem_cons.1 hb with h | h
      · subst h
        exact le_trans (foldl_min_le_init rest (min acc b)) (min_le_right _ _)
      · exact ih b h (min acc x)

theorem foldl_min_mem (l : List ℚ) (acc : ℚ) :
    l.foldl min acc = acc ∨ l.foldl min acc ∈ l := by
  induction l generalizing acc with
  | nil => exact Or.inl rfl
  | cons x rest ih =>
      rw [List.foldl_cons]
      rcases ih (min acc x) with h | h
      · rw [h]
        rcases le_total acc x with hle | hle
        · exact Or.inl (min_eq_left hle)
        · right
          rw [min_eq_right hle]
          exact List.mem_cons_self x rest
      · exact Or.inr (List.mem_cons_of_mem x h)

theorem fold_precio_keep (hoy hora : Int) (V : ℚ) (l : List Descuento) (acc : ℚ)
    (h : ∀ d ∈ l, descuentoAplica hoy hora d = false) :
    l.foldl
      (fun precioConDescuentoMasAlto d =>
        if descuentoAplica hoy hora d then
          if V * (1 - d.precioPromocional) < precioConDescuentoMasAlto then
            V * (1 - d.precioPromocional)
          else precioConDescuentoMasAlto
        else precioConDescuentoMasAlto) acc = acc := by
  induction l generalizing acc with
  | nil => rfl
  | cons d rest ih =>
      have hd := h d (List.mem_cons_self d rest)
      simp only [List.foldl_cons, hd, Bool.false_eq_true, if_false]
      exact ih acc (fun x hx => h x (List.mem_cons_of_mem d hx))

end PrecioLemmas

/-- C9: the promotional price evaluation never raises the price: for every
evaluation instant and every product (with its discount list),
`ProductService.calcularPrecioFinal` returns at most the original
`precioVenta`. -/
theorem c9_calcularPrecioFinal_le_precioVenta
    (hoy hora : Int) (producto : Producto) :
    ProductService.calcularPrecioFinal hoy hora producto ≤ producto.precioVenta := by
  unfold ProductService.calcularPrecioFinal
  by_cases h : (!producto.tienePromocion || producto.descuentos.length == 0) = true
  · simp [h]
  · simp only [h, if_false]
    rw [fold_precio_eq_fold_min]
    exact foldl_min_le_init _ _

/-- C2: discount-window price calculation.  First part: when the product has
no promotion flag, or the instant lies outside the window of every discount of
the product, the original `precioVenta` is returned.  Second part: when the
product has the promotion flag, the price is nonnegative and the discount
fractions are positive (as DiscountService validation enforces), and the
instant lies inside the window of at least one discount, the returned price is
the lowest of the prices obtained from the discounts whose windows contain the
instant. -/
theorem c2_calcularPrecioFinal_window :
    (∀ (hoy hora : Int) (producto : Producto),
      (producto.tienePromocion = false ∨
        ∀ d ∈ producto.descuentos, ProductService.descuentoAplica hoy hora d = false) →
      ProductService.calcularPrecioFinal hoy hora producto = producto.precioVenta) ∧
    (∀ (hoy hora : Int) (producto : Producto) (d0 : Descuento),
      producto.tienePromocion = true →
      0 ≤ producto.precioVenta →
      (∀ d ∈ producto.descuentos, 0 < d.precioPromocional) →
      d0 ∈ producto.descuentos →
      ProductService.descuentoAplica hoy hora d0 = true →
      ProductService.calcularPrecioFinal hoy hora producto ∈
        ProductService.preciosAplicables hoy hora producto ∧
      ∀ q ∈ ProductService.preciosAplicables hoy hora producto,
        ProductService.calcularPrecioFinal hoy hora producto ≤ q) := by
  constructor
  · intro hoy hora producto h
    unfold ProductService.calcularPrecioFinal
    rcases h with h | h
    · simp [h]
    · by_cases hlen : (!producto.tienePromocion || producto.descuentos.length == 0) = true
      · simp only [hlen, if_true]
      · simp only [hlen, if_false]
        exact fold_precio_keep _ _ _ _ _ h
  · intro hoy hora producto d0 hprom hV hpos hd0 haplica
    have hlen : (!producto.tienePromocion || producto.descuentos.length == 0) = false := by
      have : producto.descuentos ≠ [] := by
        intro hnil; rw [hnil] at hd0; cases hd0
      simp [hprom, List.length_eq_zero, this]
    have hcalc : ProductService.calcularPrecioFinal hoy hora producto =
        (ProductService.preciosAplicables hoy hora producto).foldl min producto.precioVenta := by
      unfold ProductService.calcularPrecioFinal
      simp only [hlen, if_false]
      exact fold_precio_eq_fold_min hoy hora producto.precioVenta producto.descuentos
        producto.precioVenta
    have hx0 : producto.precioVenta * (1 - d0.precioPromocional) ∈
        ProductService.preciosAplicables hoy hora producto := by
      exact List.mem_map_of_mem _ (List.mem_filter.2 ⟨hd0, haplica⟩)
    have hle0 : producto.precioVenta * (1 - d0.precioPromocional) ≤ producto.precioVenta := by
      have h1 : 0 ≤ producto.precioVenta * d0.precioPromocional :=
        mul_nonneg hV (le_of_lt (hpos d0 hd0))
      nlinarith
    constructor
    · rcases foldl_min_mem (ProductService.preciosAplicables hoy hora producto)
        producto.precioVenta with h | h
      · rw [hcalc, h]
        have hge : producto.precioVenta ≤ producto.precioVenta * (1 - d0.precioPromocional) := by
          have hh := foldl_min_le_mem _ _ hx0 producto.precioVenta
          rw [h] at hh
          exact hh
        have heq : producto.precioVenta * (1 - d0.precioPromocional) = producto.precioVenta :=
          le_antisymm hle0 hge
        rw [← heq]
        exact hx0
      · rw [hcalc]
        exact h
    · intro q hq
      rw [hcalc]
      exact foldl_min_le_mem _ _ hq _

/-- Concrete discount for the c2 witness: applies at every instant (all four
window bounds are null), with discount fraction 1 (DiscountService validation
only requires the fraction to be positive). -/
def descuentoW : Descuento :=
  { id := 7, activo := true, fechaDesde := none, fechaHasta := none,
    horaDesde := none, horaHasta := none, precioPromocional := 1 }

/-- Concrete product for the c2 witness. -/
def productoW : Producto :=
  { id := 1, activo := true, denominacion := "remera", precioVenta := 100,
    tienePromocion := true, descuentos := [descuentoW] }

/-- Witness for c2_calcularPrecioFinal_window: for a concrete product at price
100 with one always-applying positive discount, the computed final price is
among the applicable discounted prices and is the lowest of them. -/
theorem c2_calcularPrecioFinal_window_witness :
    ProductService.calcularPrecioFinal 0 0 productoW ∈
      ProductService.preciosAplicables 0 0 productoW ∧
    ∀ q ∈ ProductService.preciosAplicables 0 0 productoW,
      ProductService.calcularPrecioFinal 0 0 productoW ≤ q :=
  c2_calcularPrecioFinal_window.2 0 0 productoW descuentoW
    rfl (by decide)
    (by
      intro d hd
      rw [List.mem_singleton.1 hd]
      decide)
    (List.mem_singleton.2 rfl) (by decide)

-- ==========================================================================
-- Remaining ProductService queries (src/services/product.service.ts)
-- ==========================================================================

namespace ProductService

/-- DTO mapping of a product (ProductService.mapearProductoADTO), restricted
to the scalar DTO fields; precioFinal is computed with calcularPrecioFinal at
the evaluation instant. -/
def mapearProductoADTO (hoySoloFecha horaActualSegundos : Int) (producto : Producto) :
    ProductoDTO :=
  { id := producto.id, denominacion := producto.denominacion,
    precioOriginal := producto.precioVenta,
    precioFinal := calcularPrecioFinal hoySoloFecha horaActualSegundos producto,
    tienePromocion := producto.tienePromocion }

/-- ProductService.obtenerTodosLosProductosDTO: `findMany` with
`where: { activo: true }`, then DTO mapping of every row. -/
def obtenerTodosLosProductosDTO (hoySoloFecha horaActualSegundos : Int) (db : DB) :
    List ProductoDTO :=
  (db.productos.filter (fun p => p.activo)).map
    (mapearProductoADTO hoySoloFecha horaActualSegundos)

end ProductService

-- ==========================================================================
-- OrderDetailService (src/services/order-detail.service.ts)
-- ==========================================================================

namespace OrderDetailService

/-- Owner check of OrderDetailService.create step 2: the order`s included
`usuario` relation exists and is the current user. -/
def autorizadoParaOrden (db : DB) (oc : OrdenCompra) (currentUser : AuthUser) : Bool :=
  match oc.usuarioId.bind (fun uid => db.usuarios.find? (fun w => w.id == uid)) with
  | some w => w.id == currentUser.id
  | none => false

/-- Plan of OrderDetailService.create: order existence check, CLIENTE
authorization, variant existence check, stock check; then the two writes of
the source — the bare insert of the order line (step 6) and the bare
decrement of the variant stock (step 7).  No transaction wraps them. -/
def createPlan (db : DB) (data : CreateOrdenCompraDetallePayload)
    (currentUser : AuthUser) : Except String (OrdenCompraDetalle × List WriteUnit) :=
  match db.ordenCompras.find? (fun oc => oc.id == data.ordenCompraId) with
  | none => Except.error "Orden de compra no encontrada."
  | some oc =>
      if currentUser.rol = Rol.CLIENTE ∧ autorizadoParaOrden db oc currentUser = false then
        Except.error "No autorizado para crear detalles en esta orden de compra."
      else
        match db.productoDetalles.find? (fun pd => pd.id == data.productoDetalleId) with
        | none => Except.error "Detalle de producto no encontrado."
        | some productoDetalle =>
            if productoDetalle.stockActual < data.cantidad then
              Except.error "Stock insuficiente para el producto."
            else
              let newDetalle : OrdenCompraDetalle :=
                { id := db.nextId, activo := true, cantidad := data.cantidad,
                  subtotal := productoDetalle.precioCompra * (data.cantidad : ℚ),
                  ordenCompraId := data.ordenCompraId,
                  productoDetalleId := data.productoDetalleId }
              Except.ok (newDetalle,
                [WriteUnit.single (fun db1 =>
                  { db1 with
                    ordenCompraDetalles := db1.ordenCompraDetalles ++ [newDetalle],
                    nextId := db1.nextId + 1 }),
                 WriteUnit.single (fun db1 =>
                  { db1 with
                    productoDetalles := db1.productoDetalles.map (fun pd =>
                      if pd.id == data.productoDetalleId then
                        { pd with stockActual := pd.stockActual - data.cantidad }
                      else pd) })])

/-- OrderDetailService.create under a fault schedule. -/
def createFaulty (data : CreateOrdenCompraDetallePayload) (currentUser : AuthUser)
    (db : DB) (failAt : List Nat) : Except String OrdenCompraDetalle × DB :=
  runPlan (createPlan db data currentUser) db failAt

/-- OrderDetailService.create, normal (failure-free) run. -/
def create (data : CreateOrdenCompraDetallePayload) (currentUser : AuthUser)
    (db : DB) : Except String OrdenCompraDetalle × DB :=
  createFaulty data currentUser db []

/-- OrderDetailService.findAll: `where: { activo: includeInactive ? undefined
: true }`. -/
def findAll (db : DB) (includeInactive : Bool) : List OrdenCompraDetalle :=
  if includeInactive then db.ordenCompraDetalles
  else db.ordenCompraDetalles.filter (fun d => d.activo)

/-- Plan of OrderDetailService.delete: lookup by id, reject missing or
already-inactive lines; then the bare stock increment on the related variant
(when it exists) followed by the bare update marking the line inactive. -/
def deletePlan (db : DB) (i : Nat) : Except String (OrdenCompraDetalle × List WriteUnit) :=
  match db.ordenCompraDetalles.find? (fun d => d.id == i) with
  | none => Except.error "Detalle de orden no encontrado o ya desactivado."
  | some existingDetalle =>
      if existingDetalle.activo = false then
        Except.error "Detalle de orden no encontrado o ya desactivado."
      else
        let stockWrites : List WriteUnit :=
          match db.productoDetalles.find?
              (fun pd => pd.id == existingDetalle.productoDetalleId) with
          | some pd =>
              [WriteUnit.single (fun db1 =>
                { db1 with productoDetalles := db1.productoDetalles.map (fun q =>
                    if q.id == pd.id then
                      { q with stockActual := q.stockActual + existingDetalle.cantidad }
                    else q) })]
          | none => []
        Except.ok ({ existingDetalle with activo := false },
          stockWrites ++
          [WriteUnit.single (fun db1 =>
            { db1 with ordenCompraDetalles := db1.ordenCompraDetalles.map (fun d =>
                if d.id == i then { d with activo := false } else d) })])

/-- OrderDetailService.delete, normal run. -/
def delete (i : Nat) (db : DB) : Except String OrdenCompraDetalle × DB :=
  runPlan (deletePlan db i) db []

/-- Plan of OrderDetailService.reactivate: lookup by id, reject missing or
already-active lines; when the related variant exists, reject insufficient
stock and plan the bare stock decrement; finally the bare update marking the
line active. -/
def reactivatePlan (db : DB) (i : Nat) : Except String (OrdenCompraDetalle × List WriteUnit) :=
  match db.ordenCompraDetalles.find? (fun d => d.id == i) with
  | none => Except.error "Detalle de orden no encontrado o ya está activo."
  | some existingDetalle =>
      if existingDetalle.activo then
        Except.error "Detalle de orden no encontrado o ya está activo."
      else
        let marcarActivo : WriteUnit :=
          WriteUnit.single (fun db1 =>
            { db1 with ordenCompraDetalles := db1.ordenCompraDetalles.map (fun d =>
                if d.id == i then { d with activo := true } else d) })
        match db.productoDetalles.find?
            (fun pd => pd.id == existingDetalle.productoDetalleId) with
        | some pd =>
            if pd.stockActual < existingDetalle.cantidad then
              Except.error "Stock insuficiente para reactivar el detalle de orden."
            else
              Except.ok ({ existingDetalle with activo := true },
                [WriteUnit.single (fun db1 =>
                  { db1 with productoDetalles := db1.productoDetalles.map (fun q =>
                      if q.id == pd.id then
                        { q with stockActual := q.stockActual - existingDetalle.cantidad }
                      else q) }),
                 marcarActivo])
        | none => Except.ok ({ existingDetalle with activo := true }, [marcarActivo])

/-- OrderDetailService.reactivate, normal run. -/
def reactivate (i : Nat) (db : DB) : Except String OrdenCompraDetalle × DB :=
  runPlan (reactivatePlan db i) db []

end OrderDetailService

-- ==========================================================================
-- ProductDetailService (src/services/product-detail.service.ts)
-- ==========================================================================

namespace ProductDetailService

/-- ProductDetailService.findById: `findUnique` with
`where: { id, activo: true }`. -/
def findById (db : DB) (i : Nat) : Option ProductoDetalle :=
  db.productoDetalles.find? (fun pd => pd.id == i && pd.activo)

/-- Plan of ProductDetailService.delete: a single `update` with `where: { id }`
setting `activo: false`; prisma raises P2025 when the row does not exist. -/
def deletePlan (db : DB) (i : Nat) : Except String (ProductoDetalle × List WriteUnit) :=
  match db.productoDetalles.find? (fun pd => pd.id == i) with
  | none => Except.error "Registro no encontrado (P2025)."
  | some pd =>
      Except.ok ({ pd with activo := false },
        [WriteUnit.single (fun db1 =>
          { db1 with productoDetalles := db1.productoDetalles.map (fun q =>
              if q.id == i then { q with activo := false } else q) })])

/-- ProductDetailService.delete, normal run. -/
def delete (i : Nat) (db : DB) : Except String ProductoDetalle × DB :=
  runPlan (deletePlan db i) db []

end ProductDetailService

-- ==========================================================================
-- OrderService.crear (src/services/order.service.ts)
-- ==========================================================================

/-- Planned order line of OrderService.crear before primary keys are
assigned (an element of `detallesParaCrear`). -/
structure NuevoDetalleData where
  cantidad : Int
  subtotal : ℚ
  productoDetalleId : Nat
deriving DecidableEq

namespace OrderService

/-- Lookup in the map built by OrderService.crear step 1 from the `findMany`
over the payload ids with `activo: true`: the first active variant with the
given id.  (The `id in ids` clause of the query is implied at every use site,
where the id searched comes from the payload.) -/
def findPD (db : DB) (i : Nat) : Option ProductoDetalle :=
  db.productoDetalles.find? (fun pd => pd.id == i && pd.activo)

/-- Validation-and-pricing loop of OrderService.crear: for each payload line,
require an active variant and sufficient stock, price the line at
`precioCompra * cantidad`, and accumulate the order total. -/
def buildDetalles (db : DB) :
    List CreateOrdenCompraDetalleNestedPayload → Except String (ℚ × List NuevoDetalleData)
  | [] => Except.ok (0, [])
  | d :: rest =>
      match findPD db d.productoDetalleId with
      | none => Except.error "ProductoDetalle no encontrado o inactivo."
      | some productoDetalle =>
          if productoDetalle.stockActual < d.cantidad then
            Except.error "Stock insuficiente para ProductoDetalle."
          else
            match buildDetalles db rest with
            | Except.error e => Except.error e
            | Except.ok (t, nds) =>
                Except.ok (productoDetalle.precioCompra * (d.cantidad : ℚ) + t,
                  { cantidad := d.cantidad,
                    subtotal := productoDetalle.precioCompra * (d.cantidad : ℚ),
                    productoDetalleId := d.productoDetalleId } :: nds)

/-- Assignment of fresh autoincrement ids to the nested order lines created
together with the order. -/
def assignIds (i : Nat) (ordenId : Nat) : List NuevoDetalleData → List OrdenCompraDetalle
  | [] => []
  | nd :: rest =>
      { id := i, activo := true, cantidad := nd.cantidad, subtotal := nd.subtotal,
        ordenCompraId := ordenId, productoDetalleId := nd.productoDetalleId } ::
      assignIds (i + 1) ordenId rest

/-- Stock updates issued inside the `prisma.$transaction` of OrderService.crear:
for each payload line whose variant was found, set the stock to the stale
value read in step 1 minus the requested cantidad. -/
def stockWrites (db : DB) (detalles : List CreateOrdenCompraDetalleNestedPayload) :
    List (DB → DB) :=
  detalles.filterMap (fun d =>
    (findPD db d.productoDetalleId).map (fun pd => fun db1 =>
      { db1 with productoDetalles := db1.productoDetalles.map (fun q =>
          if q.id == d.productoDetalleId then
            { q with stockActual := pd.stockActual - d.cantidad }
          else q) }))

/-- Plan of OrderService.crear: reject an empty detalles list, validate and
price every line, then (a) one bare `ordenCompra.create` inserting the order
with its nested lines, and (b) one `prisma.$transaction` containing only the
stock updates.  The created order carries no usuario connection (the source
passes none). -/
def crearPlan (db : DB) (data : CreateOrdenCompraPayload) (now : Nat) :
    Except String ((OrdenCompra × List OrdenCompraDetalle) × List WriteUnit) :=
  if data.detalles.length = 0 then
    Except.error "La orden debe tener al menos un producto."
  else
    match buildDetalles db data.detalles with
    | Except.error e => Except.error e
    | Except.ok (totalCalculado, detallesParaCrear) =>
        let nuevaOrden : OrdenCompra :=
          { id := db.nextId, activo := true, total := totalCalculado,
            fechaCompra := now, direccionEnvio := data.direccionEnvio,
            usuarioId := none }
        let nuevosDetalles := assignIds (db.nextId + 1) db.nextId detallesParaCrear
        Except.ok ((nuevaOrden, nuevosDetalles),
          [WriteUnit.single (fun db1 =>
            { db1 with
              ordenCompras := db1.ordenCompras ++ [nuevaOrden],
              ordenCompraDetalles := db1.ordenCompraDetalles ++ nuevosDetalles,
              nextId := db1.nextId + 1 + detallesParaCrear.length }),
           WriteUnit.tx (stockWrites db data.detalles)])

/-- Catch-all of OrderService.crear: every thrown error is rethrown with the
message decorated by a fixed prefix. -/
def wrapCrearError {α : Type} : Except String α × DB → Except String α × DB
  | (Except.error e, db) => (Except.error ("Error al crear la orden de compra: " ++ e), db)
  | (Except.ok a, db) => (Except.ok a, db)

/-- OrderService.crear under a fault schedule. -/
def crearFaulty (data : CreateOrdenCompraPayload) (now : Nat) (db : DB)
    (failAt : List Nat) : Except String (OrdenCompra × List OrdenCompraDetalle) × DB :=
  wrapCrearError (runPlan (crearPlan db data now) db failAt)

/-- OrderService.crear, normal run. -/
def crear (data : CreateOrdenCompraPayload) (now : Nat) (db : DB) :
    Except String (OrdenCompra × List OrdenCompraDetalle) × DB :=
  crearFaulty data now db []

end OrderService

-- ==========================================================================
-- UserService (src/services/user.service.ts)
-- ==========================================================================

namespace UserService

/-- Check of UserService.reactivateAccount step 2: `findFirst` of an active
account with the proposed email, which clashes when it belongs to a
different user. -/
def emailEnUso (db : DB) (userId : Nat) (newEmail : String) : Bool :=
  match db.usuarios.find? (fun v => v.email == newEmail && v.activo) with
  | some v => v.id != userId
  | none => false

/-- Check of UserService.reactivateAccount step 3: `findFirst` of an active
account with the proposed userName, which clashes when it belongs to a
different user. -/
def userNameEnUso (db : DB) (userId : Nat) (newUserName : String) : Bool :=
  match db.usuarios.find? (fun v => v.userName == some newUserName && v.activo) with
  | some v => v.id != userId
  | none => false

/-- Plan of UserService.reactivateAccount: the account must exist and be
inactive; the new email and the new userName must not be used by another
active account; then a single update reactivates the account with the new
identifiers, clearing fechaBaja. -/
def reactivateAccountPlan (db : DB) (userId : Nat) (newEmail newUserName : String)
    (now : Nat) : Except String (Usuario × List WriteUnit) :=
  match db.usuarios.find? (fun u => u.id == userId) with
  | none => Except.error "Usuario no encontrado."
  | some u =>
      if u.activo then Except.error "La cuenta ya está activa."
      else
        if emailEnUso db userId newEmail then
          Except.error "El nuevo email ya está en uso por otra cuenta activa."
        else
          if userNameEnUso db userId newUserName then
            Except.error "El nuevo nombre de usuario ya está en uso por otra cuenta activa."
          else
            let updated : Usuario :=
              { u with
                  activo := true
                  fechaBaja := none
                  email := newEmail
                  userName := some newUserName
                  fechaModificacion := now }
            Except.ok (updated,
              [WriteUnit.single (fun db1 =>
                { db1 with usuarios := db1.usuarios.map (fun w =>
                    if w.id == userId then
                      { w with
                          activo := true
                          fechaBaja := none
                          email := newEmail
                          userName := some newUserName
                          fechaModificacion := now }
                    else w) })])

/-- UserService.reactivateAccount, normal run. -/
def reactivateAccount (userId : Nat) (newEmail newUserName : String) (now : Nat)
    (db : DB) : Except String Usuario × DB :=
  runPlan (reactivateAccountPlan db userId newEmail newUserName now) db []

/-- Plan of UserService.removeDireccionFromUser: the user must exist and be
active, the address must exist and belong to the user; then a single
`prisma.direccion.delete` physically removes the row. -/
def removeDireccionFromUserPlan (db : DB) (userId direccionId : Nat) :
    Except String (Unit × List WriteUnit) :=
  match db.usuarios.find? (fun u => u.id == userId && u.activo) with
  | none => Except.error "Usuario no encontrado o inactivo."
  | some _ =>
      match db.direcciones.find?
          (fun d => d.id == direccionId && d.usuarioId == some userId) with
      | none => Except.error "Direccion no encontrada para el usuario."
      | some _ =>
          Except.ok ((),
            [WriteUnit.single (fun db1 =>
              { db1 with direcciones :=
                  db1.direcciones.filter (fun d => d.id != direccionId) })])

/-- UserService.removeDireccionFromUser, normal run. -/
def removeDireccionFromUser (userId direccionId : Nat) (db : DB) :
    Except String Unit × DB :=
  runPlan (removeDireccionFromUserPlan db userId direccionId) db []

end UserService

-- ==========================================================================
-- Concrete fixtures used by witnesses and counterexamples
-- ==========================================================================

/-- Empty database with autoincrement counter at 100. -/
def dbVacia : DB :=
  { usuarios := [], productos := [], productoDetalles := [], ordenCompras := [],
    ordenCompraDetalles := [], direcciones := [], nextId := 100 }

/-- Concrete active user owning the concrete order. -/
def duenioW : Usuario :=
  { id := 2, activo := true, email := "omar@mail.com", userName := some "omar",
    rol := Rol.CLIENTE, fechaBaja := none, fechaModificacion := 0 }

/-- Concrete request user with role CLIENTE and id 1. -/
def clienteW : AuthUser := { id := 1, rol := Rol.CLIENTE }

/-- Concrete request user with role ADMIN. -/
def adminW : AuthUser := { id := 9, rol := Rol.ADMIN }

/-- Concrete order, owned by user 2. -/
def ordenW : OrdenCompra :=
  { id := 10, activo := true, total := 0, fechaCompra := 0,
    direccionEnvio := "Calle 1", usuarioId := some 2 }

/-- Concrete active product variant with stock 10. -/
def pdW : ProductoDetalle :=
  { id := 20, activo := true, precioCompra := 100, stockActual := 10 }

/-- Concrete database holding the order, its owner and the variant. -/
def dbC1 : DB :=
  { dbVacia with usuarios := [duenioW], ordenCompras := [ordenW],
                 productoDetalles := [pdW] }

/-- Concrete order-line creation payload: 1 unit of variant 20 on order 10. -/
def dataC1 : CreateOrdenCompraDetallePayload :=
  { ordenCompraId := 10, productoDetalleId := 20, cantidad := 1 }

-- ==========================================================================
-- C6: default queries exclude soft-deleted rows
-- ==========================================================================

/-- C6: default list/find queries only return active rows.  For
OrderDetailService.findAll without the includeInactive flag every returned
line is active; ProductDetailService.findById only returns an active variant;
and every DTO returned by ProductService.obtenerTodosLosProductosDTO is the
mapping of an active product. -/
theorem c6_consultas_excluyen_inactivos :
    (∀ (db : DB) (d : OrdenCompraDetalle),
      d ∈ OrderDetailService.findAll db false → d.activo = true) ∧
    (∀ (db : DB) (i : Nat) (pd : ProductoDetalle),
      ProductDetailService.findById db i = some pd → pd.activo = true) ∧
    (∀ (db : DB) (hoy hora : Int) (dto : ProductoDTO),
      dto ∈ ProductService.obtenerTodosLosProductosDTO hoy hora db →
      ∃ p, p ∈ db.productos ∧ p.activo = true ∧
        dto = ProductService.mapearProductoADTO hoy hora p) := by
  refine ⟨?_, ?_, ?_⟩
  · intro db d hd
    unfold OrderDetailService.findAll at hd
    simp only [if_neg (Bool.false_ne_true)] at hd
    exact (List.mem_filter.1 hd).2
  · intro db i pd h
    have hp := List.find?_some h
    rw [Bool.and_eq_true] at hp
    exact hp.2
  · intro db hoy hora dto hdto
    unfold ProductService.obtenerTodosLosProductosDTO at hdto
    rcases List.mem_map.1 hdto with ⟨p, hp, hmap⟩
    exact ⟨p, (List.mem_filter.1 hp).1, (List.mem_filter.1 hp).2, hmap.symm⟩

/-- Concrete active order line over order 10 and variant 20. -/
def detW : OrdenCompraDetalle :=
  { id := 30, activo := true, cantidad := 2, subtotal := 200,
    ordenCompraId := 10, productoDetalleId := 20 }

/-- Concrete database with one active row in each queried table. -/
def dbC6 : DB :=
  { dbVacia with ordenCompraDetalles := [detW], productoDetalles := [pdW],
                 productos := [productoW] }

/-- Witness for c6_consultas_excluyen_inactivos on a concrete database with
one active row per table. -/
theorem c6_consultas_excluyen_inactivos_witness :
    detW.activo = true ∧
    pdW.activo = true ∧
    ∃ p, p ∈ dbC6.productos ∧ p.activo = true ∧
      ProductService.mapearProductoADTO 0 0 productoW =
        ProductService.mapearProductoADTO 0 0 p := by
  refine ⟨?_, ?_, ?_⟩
  · exact c6_consultas_excluyen_inactivos.1 dbC6 detW (by decide)
  · exact c6_consultas_excluyen_inactivos.2.1 dbC6 20 pdW (by decide)
  · exact c6_consultas_excluyen_inactivos.2.2 dbC6 0 0
      (ProductService.mapearProductoADTO 0 0 productoW)
      (by simp [ProductService.obtenerTodosLosProductosDTO, dbC6, productoW, detW, pdW, dbVacia])

-- ==========================================================================
-- C10: OrderService.crear rejects empty orders
-- ==========================================================================

/-- C10: OrderService.crear rejects an order without lines: with an empty
detalles list it throws the "La orden debe tener al menos un producto."
error (rethrown by the catch-all with the fixed prefix) and leaves the
database unchanged. -/
theorem c10_crear_rechaza_orden_vacia
    (db : DB) (data : CreateOrdenCompraPayload) (now : Nat)
    (h : data.detalles = []) :
    OrderService.crear data now db =
      (Except.error
        "Error al crear la orden de compra: La orden debe tener al menos un producto.", db) := by
  unfold OrderService.crear OrderService.crearFaulty OrderService.crearPlan
  rw [h]
  simp [runPlan, OrderService.wrapCrearError]

/-- Witness for c10_crear_rechaza_orden_vacia on the empty payload. -/
theorem c10_crear_rechaza_orden_vacia_witness :
    OrderService.crear { detalles := [], direccionEnvio := "Calle 1" } 5 dbVacia =
      (Except.error
        "Error al crear la orden de compra: La orden debe tener al menos un producto.",
       dbVacia) :=
  c10_crear_rechaza_orden_vacia dbVacia { detalles := [], direccionEnvio := "Calle 1" } 5 rfl

-- ==========================================================================
-- C5: soft delete versus the physical address delete
-- ==========================================================================

/-- Concrete active user with id 1 (owner of the concrete address). -/
def usuarioW : Usuario :=
  { id := 1, activo := true, email := "ana@mail.com", userName := some "ana",
    rol := Rol.CLIENTE, fechaBaja := none, fechaModificacion := 0 }

/-- Concrete address of user 1. -/
def direccionW : Direccion :=
  { id := 5, activo := true, calle := "San Martin", numero := 10, cp := 5500,
    localidadId := 3, usuarioId := some 1 }

/-- Concrete database holding user 1 and their address. -/
def dbC5 : DB := { dbVacia with usuarios := [usuarioW], direcciones := [direccionW] }

/-- Counterexample to C5: UserService.removeDireccionFromUser physically
removes the address row.  On a database whose direcciones table has exactly
one row, the call succeeds and afterwards the table is empty — the row is not
marked inactive, it is gone. -/
theorem c5_counterexample :
    UserService.removeDireccionFromUser 1 5 dbC5 =
      (Except.ok (), { dbC5 with direcciones := [] }) ∧
    dbC5.direcciones.length = 1 := by
  constructor
  · decide
  · decide

/-- C5 as amended: the per-entity service delete methods soft delete — for
any variant present in the table, ProductDetailService.delete marks it
inactive and preserves the table size — but UserService.removeDireccionFromUser
physically deletes: on success the address row is filtered out of the table
entirely, so not every delete is a soft delete. -/
theorem c5_amended :
    (∀ (db : DB) (i : Nat) (pd : ProductoDetalle),
      db.productoDetalles.find? (fun q => q.id == i) = some pd →
      ∃ db2, ProductDetailService.delete i db = (Except.ok { pd with activo := false }, db2) ∧
        db2.productoDetalles.find? (fun q => q.id == i) = some { pd with activo := false } ∧
        db2.productoDetalles.length = db.productoDetalles.length) ∧
    (∀ (db : DB) (userId direccionId : Nat) (u : Usuario) (d : Direccion),
      db.usuarios.find? (fun v => v.id == userId && v.activo) = some u →
      db.direcciones.find? (fun r => r.id == direccionId && r.usuarioId == some userId) = some d →
      ∃ db2, UserService.removeDireccionFromUser userId direccionId db = (Except.ok (), db2) ∧
        db2.direcciones = db.direcciones.filter (fun r => r.id != direccionId) ∧
        ∀ r ∈ db2.direcciones, ¬ r.id = direccionId) := by
  constructor
  · intro db i pd h
    unfold ProductDetailService.delete ProductDetailService.deletePlan
    rw [h, runPlan_ok_no_fail]
    simp only [List.foldl_cons, List.foldl_nil, applyUnit]
    refine ⟨_, rfl, ?_, by simp⟩
    rw [find?_update db.productoDetalles (fun q => q.id == i)
      (fun q => { q with activo := false }) (fun a => rfl), h]
    rfl
  · intro db userId direccionId u d hu hd
    unfold UserService.removeDireccionFromUser UserService.removeDireccionFromUserPlan
    rw [hu, hd, runPlan_ok_no_fail]
    simp only [List.foldl_cons, List.foldl_nil, applyUnit]
    refine ⟨_, rfl, rfl, ?_⟩
    intro r hr heq
    have := (List.mem_filter.1 hr).2
    rw [heq] at this
    simp at this

/-- Witness for c5_amended on the concrete database: variant 20 is soft
deleted, the address of user 1 is physically removed. -/
theorem c5_amended_witness :
    (∃ db2, ProductDetailService.delete 20 { dbVacia with productoDetalles := [pdW] } =
        (Except.ok { pdW with activo := false }, db2) ∧
      db2.productoDetalles.find? (fun q => q.id == 20) = some { pdW with activo := false } ∧
      db2.productoDetalles.length =
        ({ dbVacia with productoDetalles := [pdW] } : DB).productoDetalles.length) ∧
    (∃ db2, UserService.removeDireccionFromUser 1 5 dbC5 = (Except.ok (), db2) ∧
      db2.direcciones = dbC5.direcciones.filter (fun r => r.id != 5) ∧
      ∀ r ∈ db2.direcciones, ¬ r.id = 5) :=
  ⟨c5_amended.1 { dbVacia with productoDetalles := [pdW] } 20 pdW (by decide),
   c5_amended.2 dbC5 1 5 usuarioW direccionW (by decide) (by decide)⟩

-- ==========================================================================
-- C1: OrderDetailService.create — stock check and decrement
-- ==========================================================================

/-- Counterexample to C1 as stated: a request by a CLIENTE on an existing
order owned by another user, for an existing variant with ample stock
(cantidad 1 against stock 10), does not create the line — it fails with the
authorization error and leaves the database unchanged — although the claim
promises creation whenever the requested quantity does not exceed the
stock. -/
theorem c1_counterexample :
    OrderDetailService.create dataC1 clienteW dbC1 =
      (Except.error "No autorizado para crear detalles en esta orden de compra.", dbC1) ∧
    dataC1.cantidad ≤ pdW.stockActual ∧
    dbC1.ordenCompras.find? (fun r => r.id == dataC1.ordenCompraId) = some ordenW ∧
    dbC1.productoDetalles.find? (fun r => r.id == dataC1.productoDetalleId) = some pdW ∧
    dbC1.ordenCompraDetalles = [] := by
  refine ⟨by decide, by decide, by decide, by decide, by decide⟩

/-- C1 as amended: for an authorized requester (an ADMIN, or the CLIENTE who
owns the order) on an existing order and existing variant,
OrderDetailService.create fails with an error and writes nothing when the
requested quantity exceeds stockActual, and otherwise creates the line —
with the requested cantidad, active, priced at precioCompra * cantidad — and
decrements the variant stockActual by exactly the requested quantity. -/
theorem c1_amended
    (db : DB) (data : CreateOrdenCompraDetallePayload) (currentUser : AuthUser)
    (oc : OrdenCompra) (pd : ProductoDetalle)
    (hoc : db.ordenCompras.find? (fun r => r.id == data.ordenCompraId) = some oc)
    (hpd : db.productoDetalles.find? (fun r => r.id == data.productoDetalleId) = some pd)
    (hauth : currentUser.rol = Rol.ADMIN ∨
      OrderDetailService.autorizadoParaOrden db oc currentUser = true) :
    (pd.stockActual < data.cantidad →
      OrderDetailService.create data currentUser db =
        (Except.error "Stock insuficiente para el producto.", db)) ∧
    (¬ pd.stockActual < data.cantidad →
      ∃ newDetalle db2,
        OrderDetailService.create data currentUser db = (Except.ok newDetalle, db2) ∧
        newDetalle.cantidad = data.cantidad ∧
        newDetalle.activo = true ∧
        newDetalle.subtotal = pd.precioCompra * (data.cantidad : ℚ) ∧
        db2.ordenCompraDetalles = db.ordenCompraDetalles ++ [newDetalle] ∧
        stockActualDe db2 data.productoDetalleId = some (pd.stockActual - data.cantidad)) := by
  have hcond : ¬ (currentUser.rol = Rol.CLIENTE ∧
      OrderDetailService.autorizadoParaOrden db oc currentUser = false) := by
    rcases hauth with h | h
    · intro hc
      rw [h] at hc
      cases hc.1
    · intro hc
      rw [h] at hc
      cases hc.2
  unfold OrderDetailService.create OrderDetailService.createFaulty
    OrderDetailService.createPlan
  simp only [hoc, hpd]
  rw [if_neg hcond]
  constructor
  · intro hlt
    rw [if_pos hlt]
    rfl
  · intro hge
    rw [if_neg hge, runPlan_ok_no_fail]
    simp only [List.foldl_cons, List.foldl_nil, applyUnit]
    refine ⟨_, _, rfl, rfl, rfl, rfl, rfl, ?_⟩
    unfold stockActualDe
    rw [find?_update db.productoDetalles
      (fun (q : ProductoDetalle) => q.id == data.productoDetalleId)
      (fun q => { q with stockActual := q.stockActual - data.cantidad })
      (fun a => rfl), hpd]
    rfl

/-- Witness for c1_amended: the ADMIN request of 1 unit of variant 20 (stock
10) on order 10 succeeds and decrements the stock to 9. -/
theorem c1_amended_witness :
    ∃ newDetalle db2,
      OrderDetailService.create dataC1 adminW dbC1 = (Except.ok newDetalle, db2) ∧
      newDetalle.cantidad = dataC1.cantidad ∧
      newDetalle.activo = true ∧
      newDetalle.subtotal = pdW.precioCompra * (dataC1.cantidad : ℚ) ∧
      db2.ordenCompraDetalles = dbC1.ordenCompraDetalles ++ [newDetalle] ∧
      stockActualDe db2 dataC1.productoDetalleId = some (pdW.stockActual - dataC1.cantidad) :=
  (c1_amended dbC1 dataC1 adminW ordenW pdW (by decide) (by decide)
    (Or.inl rfl)).2 (by decide)

-- ==========================================================================
-- C4: OrderDetailService.delete / reactivate
-- ==========================================================================

/-- C4: soft-deleting an active order line whose variant exists marks it
inactive and returns the stock (stockActual grows by cantidad); reactivating
an inactive line decrements the stock by cantidad again, failing with an
error and no change whenever stockActual is below cantidad. -/
theorem c4_delete_reactivate :
    (∀ (db : DB) (i : Nat) (det : OrdenCompraDetalle) (pd : ProductoDetalle),
      db.ordenCompraDetalles.find? (fun d => d.id == i) = some det →
      det.activo = true →
      db.productoDetalles.find? (fun q => q.id == det.productoDetalleId) = some pd →
      ∃ db2, OrderDetailService.delete i db =
          (Except.ok { det with activo := false }, db2) ∧
        db2.ordenCompraDetalles.find? (fun d => d.id == i) =
          some { det with activo := false } ∧
        stockActualDe db2 det.productoDetalleId = some (pd.stockActual + det.cantidad)) ∧
    (∀ (db : DB) (i : Nat) (det : OrdenCompraDetalle) (pd : ProductoDetalle),
      db.ordenCompraDetalles.find? (fun d => d.id == i) = some det →
      det.activo = false →
      db.productoDetalles.find? (fun q => q.id == det.productoDetalleId) = some pd →
      (pd.stockActual < det.cantidad →
        OrderDetailService.reactivate i db =
          (Except.error "Stock insuficiente para reactivar el detalle de orden.", db)) ∧
      (¬ pd.stockActual < det.cantidad →
        ∃ db2, OrderDetailService.reactivate i db =
            (Except.ok { det with activo := true }, db2) ∧
          db2.ordenCompraDetalles.find? (fun d => d.id == i) =
            some { det with activo := true } ∧
          stockActualDe db2 det.productoDetalleId = some (pd.stockActual - det.cantidad))) := by
  constructor
  · intro db i det pd hdet hact hpd
    have hpdid : pd.id = det.productoDetalleId := by
      have := List.find?_some hpd
      simpa using this
    unfold OrderDetailService.delete OrderDetailService.deletePlan
    simp only [hdet, hpd]
    rw [if_neg (by rw [hact]; decide)]
    rw [runPlan_ok_no_fail]
    simp only [List.cons_append, List.nil_append, List.foldl_cons, List.foldl_nil, applyUnit]
    refine ⟨_, rfl, ?_, ?_⟩
    · rw [find?_update db.ordenCompraDetalles (fun d => d.id == i)
        (fun d => { d with activo := false }) (fun a => rfl), hdet]
      rfl
    · unfold stockActualDe
      rw [hpdid, find?_update db.productoDetalles
        (fun q => q.id == det.productoDetalleId)
        (fun q => { q with stockActual := q.stockActual + det.cantidad })
        (fun a => rfl), hpd]
      rfl
  · intro db i det pd hdet hact hpd
    have hpdid : pd.id = det.productoDetalleId := by
      have := List.find?_some hpd
      simpa using this
    unfold OrderDetailService.reactivate OrderDetailService.reactivatePlan
    simp only [hdet, hpd]
    rw [if_neg (by rw [hact]; decide)]
    constructor
    · intro hlt
      rw [if_pos hlt]
      rfl
    · intro hge
      rw [if_neg hge, runPlan_ok_no_fail]
      simp only [List.foldl_cons, List.foldl_nil, applyUnit]
      refine ⟨_, rfl, ?_, ?_⟩
      · rw [find?_update db.ordenCompraDetalles (fun d => d.id == i)
          (fun d => { d with activo := true }) (fun a => rfl), hdet]
        rfl
      · unfold stockActualDe
        rw [hpdid, find?_update db.productoDetalles
          (fun q => q.id == det.productoDetalleId)
          (fun q => { q with stockActual := q.stockActual - det.cantidad })
          (fun a => rfl), hpd]
        rfl

/-- Concrete database with the active line detW (cantidad 2) and variant 20
(stock 10). -/
def dbC4 : DB := { dbVacia with ordenCompraDetalles := [detW], productoDetalles := [pdW] }

/-- Concrete inactive order line. -/
def detWI : OrdenCompraDetalle := { detW with activo := false }

/-- Concrete database with the inactive line detWI and variant 20. -/
def dbC4i : DB := { dbVacia with ordenCompraDetalles := [detWI], productoDetalles := [pdW] }

/-- Witness for c4_delete_reactivate: deleting the concrete active line
succeeds and returns its 2 units; reactivating the concrete inactive line
succeeds and takes the 2 units back. -/
theorem c4_delete_reactivate_witness :
    (∃ db2, OrderDetailService.delete 30 dbC4 =
        (Except.ok { detW with activo := false }, db2) ∧
      db2.ordenCompraDetalles.find? (fun d => d.id == 30) =
        some { detW with activo := false } ∧
      stockActualDe db2 detW.productoDetalleId = some (pdW.stockActual + detW.cantidad)) ∧
    (∃ db2, OrderDetailService.reactivate 30 dbC4i =
        (Except.ok { detWI with activo := true }, db2) ∧
      db2.ordenCompraDetalles.find? (fun d => d.id == 30) =
        some { detWI with activo := true } ∧
      stockActualDe db2 detWI.productoDetalleId = some (pdW.stockActual - detWI.cantidad)) :=
  ⟨c4_delete_reactivate.1 dbC4 30 detW pdW (by decide) rfl (by decide),
   (c4_delete_reactivate.2 dbC4i 30 detWI pdW (by decide) rfl (by decide)).2 (by decide)⟩

-- ==========================================================================
-- C7: UserService.reactivateAccount
-- ==========================================================================

theorem emailEnUso_true (db : DB) (userId : Nat) (newEmail : String) (v : Usuario)
    (hv : v ∈ db.usuarios) (hact : v.activo = true) (hem : v.email = newEmail)
    (hid : ∀ w ∈ db.usuarios, w.activo = true → w.id ≠ userId) :
    UserService.emailEnUso db userId newEmail = true := by
  unfold UserService.emailEnUso
  cases hfind : db.usuarios.find? (fun w => w.email == newEmail && w.activo) with
  | none =>
      exfalso
      apply List.find?_eq_none.1 hfind v hv
      simp [hem, hact]
  | some w =>
      have hw := List.find?_some hfind
      rw [Bool.and_eq_true] at hw
      have hwid : w.id ≠ userId := hid w (List.mem_of_find?_eq_some hfind) hw.2
      simp [hwid]

theorem userNameEnUso_true (db : DB) (userId : Nat) (newUserName : String) (v : Usuario)
    (hv : v ∈ db.usuarios) (hact : v.activo = true) (hun : v.userName = some newUserName)
    (hid : ∀ w ∈ db.usuarios, w.activo = true → w.id ≠ userId) :
    UserService.userNameEnUso db userId newUserName = true := by
  unfold UserService.userNameEnUso
  cases hfind : db.usuarios.find? (fun w => w.userName == some newUserName && w.activo) with
  | none =>
      exfalso
      apply List.find?_eq_none.1 hfind v hv
      simp [hun, hact]
  | some w =>
      have hw := List.find?_some hfind
      rw [Bool.and_eq_true] at hw
      have hwid : w.id ≠ userId := hid w (List.mem_of_find?_eq_some hfind) hw.2
      simp [hwid]

theorem emailEnUso_false (db : DB) (userId : Nat) (newEmail : String)
    (h : ∀ w ∈ db.usuarios, w.activo = true → ¬ w.email = newEmail) :
    UserService.emailEnUso db userId newEmail = false := by
  unfold UserService.emailEnUso
  cases hfind : db.usuarios.find? (fun w => w.email == newEmail && w.activo) with
  | none => rfl
  | some w =>
      exfalso
      have hw := List.find?_some hfind
      rw [Bool.and_eq_true] at hw
      exact h w (List.mem_of_find?_eq_some hfind) hw.2 (by simpa using hw.1)

theorem userNameEnUso_false (db : DB) (userId : Nat) (newUserName : String)
    (h : ∀ w ∈ db.usuarios, w.activo = true → ¬ w.userName = some newUserName) :
    UserService.userNameEnUso db userId newUserName = false := by
  unfold UserService.userNameEnUso
  cases hfind : db.usuarios.find? (fun w => w.userName == some newUserName && w.activo) with
  | none => rfl
  | some w =>
      exfalso
      have hw := List.find?_some hfind
      rw [Bool.and_eq_true] at hw
      exact h w (List.mem_of_find?_eq_some hfind) hw.2 (by simpa using hw.1)

/-- C7: reactivating a soft-deleted user (which exists, is inactive, and is
the only row with its id) fails with an error and leaves the database — in
particular the deactivated account — unchanged whenever some other active
account already uses the proposed email or the proposed userName; otherwise
it succeeds, and the account row becomes active with the new email, the new
userName and a cleared fechaBaja. -/
theorem c7_reactivateAccount
    (db : DB) (userId : Nat) (newEmail newUserName : String) (now : Nat) (u : Usuario)
    (hu : db.usuarios.find? (fun v => v.id == userId) = some u)
    (hinact : u.activo = false)
    (huniq : ∀ v ∈ db.usuarios, v.id = userId → v = u) :
    (∀ v ∈ db.usuarios, v.activo = true →
      (v.email = newEmail ∨ v.userName = some newUserName) →
      ∃ e, UserService.reactivateAccount userId newEmail newUserName now db =
        (Except.error e, db)) ∧
    ((∀ v ∈ db.usuarios, v.activo = true →
        ¬ v.email = newEmail ∧ ¬ v.userName = some newUserName) →
      ∃ db2,
        UserService.reactivateAccount userId newEmail newUserName now db =
          (Except.ok { u with
              activo := true
              fechaBaja := none
              email := newEmail
              userName := some newUserName
              fechaModificacion := now }, db2) ∧
        db2.usuarios.find? (fun v => v.id == userId) =
          some { u with
              activo := true
              fechaBaja := none
              email := newEmail
              userName := some newUserName
              fechaModificacion := now }) := by
  have hid : ∀ w ∈ db.usuarios, w.activo = true → w.id ≠ userId := by
    intro w hw hwact hwid
    have hwu := huniq w hw hwid
    rw [hwu, hinact] at hwact
    exact absurd hwact (by decide)
  constructor
  · intro v hv hvact hdisj
    unfold UserService.reactivateAccount UserService.reactivateAccountPlan
    simp only [hu]
    rw [if_neg (by rw [hinact]; decide)]
    by_cases hE : UserService.emailEnUso db userId newEmail = true
    · rw [if_pos hE]
      exact ⟨_, rfl⟩
    · rw [if_neg hE]
      have hvun : v.userName = some newUserName := by
        rcases hdisj with h | h
        · exact absurd (emailEnUso_true db userId newEmail v hv hvact h hid) hE
        · exact h
      rw [if_pos (userNameEnUso_true db userId newUserName v hv hvact hvun hid)]
      exact ⟨_, rfl⟩
  · intro hfresh
    have hEf : UserService.emailEnUso db userId newEmail = false :=
      emailEnUso_false db userId newEmail (fun w hw hwact => (hfresh w hw hwact).1)
    have hUf : UserService.userNameEnUso db userId newUserName = false :=
      userNameEnUso_false db userId newUserName (fun w hw hwact => (hfresh w hw hwact).2)
    unfold UserService.reactivateAccount UserService.reactivateAccountPlan
    simp only [hu]
    rw [if_neg (by rw [hinact]; decide), if_neg (by rw [hEf]; decide),
      if_neg (by rw [hUf]; decide), runPlan_ok_no_fail]
    simp only [List.foldl_cons, List.foldl_nil, applyUnit]
    refine ⟨_, rfl, ?_⟩
    rw [find?_update db.usuarios (fun v => v.id == userId)
      (fun w => { w with
          activo := true
          fechaBaja := none
          email := newEmail
          userName := some newUserName
          fechaModificacion := now }) (fun a => rfl), hu]
    rfl

/-- Concrete soft-deleted user (id 3). -/
def usuarioInactivoW : Usuario :=
  { id := 3, activo := false, email := "viejo@mail.com", userName := some "viejo",
    rol := Rol.CLIENTE, fechaBaja := some 10, fechaModificacion := 0 }

/-- Concrete database with one active user (usuarioW) and one soft-deleted
user (usuarioInactivoW). -/
def dbC7 : DB := { dbVacia with usuarios := [usuarioW, usuarioInactivoW] }

/-- Witness for c7_reactivateAccount: reusing the active account email
"ana@mail.com" fails and leaves the database unchanged; a fresh email and
userName reactivate account 3 with cleared fechaBaja. -/
theorem c7_reactivateAccount_witness :
    (∃ e, UserService.reactivateAccount 3 "ana@mail.com" "nuevo" 50 dbC7 =
      (Except.error e, dbC7)) ∧
    (∃ db2,
      UserService.reactivateAccount 3 "nueva@mail.com" "nuevo" 50 dbC7 =
        (Except.ok { usuarioInactivoW with
            activo := true
            fechaBaja := none
            email := "nueva@mail.com"
            userName := some "nuevo"
            fechaModificacion := 50 }, db2) ∧
      db2.usuarios.find? (fun v => v.id == 3) =
        some { usuarioInactivoW with
            activo := true
            fechaBaja := none
            email := "nueva@mail.com"
            userName := some "nuevo"
            fechaModificacion := 50 }) :=
  ⟨(c7_reactivateAccount dbC7 3 "ana@mail.com" "nuevo" 50 usuarioInactivoW
      (by decide) rfl (by decide)).1 usuarioW (by decide) rfl (Or.inl rfl),
   (c7_reactivateAccount dbC7 3 "nueva@mail.com" "nuevo" 50 usuarioInactivoW
      (by decide) rfl (by decide)).2 (by decide)⟩

-- ==========================================================================
-- C8: OrderService.crear — totals
-- ==========================================================================

theorem buildDetalles_ok (db : DB) :
    ∀ (l : List CreateOrdenCompraDetalleNestedPayload) (t : ℚ) (nds : List NuevoDetalleData),
    OrderService.buildDetalles db l = Except.ok (t, nds) →
    t = (nds.map (fun nd => nd.subtotal)).sum ∧
    ∀ nd ∈ nds, ∃ pd, OrderService.findPD db nd.productoDetalleId = some pd ∧
      nd.subtotal = pd.precioCompra * (nd.cantidad : ℚ) := by
  intro l
  induction l with
  | nil =>
      intro t nds h
      unfold OrderService.buildDetalles at h
      simp only [Except.ok.injEq, Prod.mk.injEq] at h
      obtain ⟨ht, hnds⟩ := h
      subst ht
      subst hnds
      exact ⟨by simp, by intro nd hnd; cases hnd⟩
  | cons d rest ih =>
      intro t nds h
      unfold OrderService.buildDetalles at h
      cases hf : OrderService.findPD db d.productoDetalleId with
      | none => rw [hf] at h; simp at h
      | some pd =>
          simp only [hf] at h
          by_cases hs : pd.stockActual < d.cantidad
          · rw [if_pos hs] at h
            simp at h
          · rw [if_neg hs] at h
            cases hb : OrderService.buildDetalles db rest with
            | error e =>
                simp only [hb] at h
                exact Except.noConfusion h
            | ok p =>
                obtain ⟨t', nds'⟩ := p
                simp only [hb] at h
                simp only [Except.ok.injEq, Prod.mk.injEq] at h
                obtain ⟨ht, hnds⟩ := h
                obtain ⟨ihsum, ihmem⟩ := ih t' nds' hb
                subst hnds
                constructor
                · rw [← ht, ihsum]
                  simp
                · intro nd hnd
                  rcases List.mem_cons.1 hnd with h1 | h1
                  · subst h1
                    exact ⟨pd, hf, rfl⟩
                  · exact ihmem nd h1

theorem assignIds_map_subtotal :
    ∀ (nds : List NuevoDetalleData) (i oid : Nat),
    (OrderService.assignIds i oid nds).map (fun d => d.subtotal) =
      nds.map (fun nd => nd.subtotal) := by
  intro nds
  induction nds with
  | nil => intro i oid; rfl
  | cons nd rest ih =>
      intro i oid
      unfold OrderService.assignIds
      simp only [List.map_cons, ih]

theorem assignIds_mem :
    ∀ (nds : List NuevoDetalleData) (i oid : Nat) (det : OrdenCompraDetalle),
    det ∈ OrderService.assignIds i oid nds →
    ∃ nd ∈ nds, det.cantidad = nd.cantidad ∧ det.subtotal = nd.subtotal ∧
      det.productoDetalleId = nd.productoDetalleId := by
  intro nds
  induction nds with
  | nil => intro i oid det h; cases h
  | cons nd rest ih =>
      intro i oid det h
      unfold OrderService.assignIds at h
      rcases List.mem_cons.1 h with h1 | h1
      · subst h1
        exact ⟨nd, List.mem_cons_self nd rest, rfl, rfl, rfl⟩
      · obtain ⟨nd', hmem, hh⟩ := ih (i + 1) oid det h1
        exact ⟨nd', List.mem_cons_of_mem nd hmem, hh⟩

theorem crearPlan_ok_inv (db : DB) (data : CreateOrdenCompraPayload) (now : Nat)
    (r : OrdenCompra × List OrdenCompraDetalle) (units : List WriteUnit)
    (h : OrderService.crearPlan db data now = Except.ok (r, units)) :
    ∃ t nds,
      ¬ data.detalles.length = 0 ∧
      OrderService.buildDetalles db data.detalles = Except.ok (t, nds) ∧
      r.1 = { id := db.nextId, activo := true, total := t, fechaCompra := now,
              direccionEnvio := data.direccionEnvio, usuarioId := none } ∧
      r.2 = OrderService.assignIds (db.nextId + 1) db.nextId nds ∧
      units = [WriteUnit.single (fun db1 =>
          { db1 with
            ordenCompras := db1.ordenCompras ++
              [{ id := db.nextId, activo := true, total := t, fechaCompra := now,
                 direccionEnvio := data.direccionEnvio, usuarioId := none }],
            ordenCompraDetalles := db1.ordenCompraDetalles ++
              OrderService.assignIds (db.nextId + 1) db.nextId nds,
            nextId := db1.nextId + 1 + nds.length }),
        WriteUnit.tx (OrderService.stockWrites db data.detalles)] := by
  unfold OrderService.crearPlan at h
  by_cases hlen : data.detalles.length = 0
  · rw [if_pos hlen] at h
    simp at h
  · rw [if_neg hlen] at h
    cases hb : OrderService.buildDetalles db data.detalles with
    | error e =>
        simp only [hb] at h
        exact Except.noConfusion h
    | ok p =>
        obtain ⟨t, nds⟩ := p
        simp only [hb, Except.ok.injEq, Prod.mk.injEq] at h
        obtain ⟨hr, hunits⟩ := h
        exact ⟨t, nds, hlen, rfl, by rw [← hr], by rw [← hr], by rw [← hunits]⟩

/-- C8: every successfully created order has total equal to the sum of its
line subtotals, and each line subtotal equals the (active) variant price
precioCompra times the requested cantidad. -/
theorem c8_total_es_suma_de_subtotales
    (db : DB) (data : CreateOrdenCompraPayload) (now : Nat)
    (orden : OrdenCompra) (dets : List OrdenCompraDetalle) (db2 : DB)
    (h : OrderService.crear data now db = (Except.ok (orden, dets), db2)) :
    orden.total = (dets.map (fun d => d.subtotal)).sum ∧
    ∀ det ∈ dets, ∃ pd, OrderService.findPD db det.productoDetalleId = some pd ∧
      det.subtotal = pd.precioCompra * (det.cantidad : ℚ) := by
  unfold OrderService.crear OrderService.crearFaulty at h
  cases hp : OrderService.crearPlan db data now with
  | error e =>
      rw [hp] at h
      simp [runPlan, OrderService.wrapCrearError] at h
  | ok p =>
      obtain ⟨r, units⟩ := p
      rw [hp, runPlan_ok_no_fail] at h
      obtain ⟨t, nds, hlen, hb, hr1, hr2, hunits⟩ :=
        crearPlan_ok_inv db data now r units hp
      unfold OrderService.wrapCrearError at h
      simp only [Prod.mk.injEq, Except.ok.injEq] at h
      obtain ⟨hr, hdb⟩ := h
      obtain ⟨hsum, hmem⟩ := buildDetalles_ok db data.detalles t nds hb
      have horden : orden = r.1 := by rw [hr]
      have hdets : dets = r.2 := by rw [hr]
      constructor
      · rw [horden, hr1, hdets, hr2]
        simp only [assignIds_map_subtotal]
        exact hsum
      · intro det hdet
        rw [hdets, hr2] at hdet
        obtain ⟨nd, hnd, hc, hsub, hpid⟩ := assignIds_mem nds (db.nextId + 1) db.nextId det hdet
        obtain ⟨pd, hfind, hval⟩ := hmem nd hnd
        refine ⟨pd, ?_, ?_⟩
        · rw [hpid]
          exact hfind
        · rw [hsub, hc]
          exact hval

/-- Concrete database for the crear runs: only the variant table is
populated. -/
def dbC8 : DB := { dbVacia with productoDetalles := [pdW] }

/-- Concrete crear payload: one line of 1 unit of variant 20. -/
def dataC8 : CreateOrdenCompraPayload :=
  { detalles := [{ productoDetalleId := 20, cantidad := 1 }],
    direccionEnvio := "Calle 1" }

/-- Concrete order produced by crear on dbC8/dataC8. -/
def ordenC8 : OrdenCompra :=
  { id := 100, activo := true, total := pdW.precioCompra * ((1 : Int) : ℚ) + 0,
    fechaCompra := 7, direccionEnvio := "Calle 1", usuarioId := none }

/-- Concrete order line produced by crear on dbC8/dataC8. -/
def detC8 : OrdenCompraDetalle :=
  { id := 101, activo := true, cantidad := 1,
    subtotal := pdW.precioCompra * ((1 : Int) : ℚ),
    ordenCompraId := 100, productoDetalleId := 20 }

/-- Witness for c8_total_es_suma_de_subtotales: the concrete one-line order
on dbC8 satisfies the total and subtotal equations. -/
theorem c8_total_es_suma_de_subtotales_witness :
    ordenC8.total = ([detC8].map (fun d => d.subtotal)).sum ∧
    ∀ det ∈ [detC8], ∃ pd, OrderService.findPD dbC8 det.productoDetalleId = some pd ∧
      det.subtotal = pd.precioCompra * (det.cantidad : ℚ) :=
  c8_total_es_suma_de_subtotales dbC8 dataC8 7 ordenC8 [detC8] _ rfl

-- ==========================================================================
-- C3: transactionality of order-line creation
-- ==========================================================================

/-- Counterexample to C3 as stated: in OrderDetailService.create the line
insert and the stock decrement are two bare writes with no enclosing
transaction.  Injecting a failure at the second write (the stock decrement)
on the concrete admin request leaves the freshly inserted order line
persisted (the table grows from 0 to 1 rows) while the stock stays at 10 —
the claimed all-or-nothing rollback does not happen. -/
theorem c3_counterexample :
    (OrderDetailService.createFaulty dataC1 adminW dbC1 [1]).1 =
      Except.error "database write failed" ∧
    (OrderDetailService.createFaulty dataC1 adminW dbC1 [1]).2.ordenCompraDetalles.length = 1 ∧
    dbC1.ordenCompraDetalles.length = 0 ∧
    stockActualDe (OrderDetailService.createFaulty dataC1 adminW dbC1 [1]).2 20 = some 10 := by
  refine ⟨by decide, by decide, by decide, by decide⟩

theorem execUnits_two_singles_fail_second (db : DB) (f g : DB → DB) :
    execUnits db [WriteUnit.single f, WriteUnit.single g] 0 [1] =
      (some "database write failed", f db) := by
  simp [execUnits]

theorem execUnits_single_then_tx_fail (db : DB) (f w : DB → DB) (ws : List (DB → DB)) :
    execUnits db [WriteUnit.single f, WriteUnit.tx (w :: ws)] 0 [1] =
      (some "database write failed", f db) := by
  simp [execUnits, execTx]

theorem stockWrites_ne_nil (db : DB)
    (d : CreateOrdenCompraDetalleNestedPayload)
    (rest : List CreateOrdenCompraDetalleNestedPayload) (t : ℚ)
    (nds : List NuevoDetalleData)
    (h : OrderService.buildDetalles db (d :: rest) = Except.ok (t, nds)) :
    OrderService.stockWrites db (d :: rest) ≠ [] := by
  unfold OrderService.buildDetalles at h
  cases hf : OrderService.findPD db d.productoDetalleId with
  | none =>
      rw [hf] at h
      exact Except.noConfusion h
  | some pd =>
      unfold OrderService.stockWrites
      rw [List.filterMap_cons, hf]
      simp

/-- C3 as amended: the order-line insert and the stock decrement are separate
atomic units, not one transaction.  In OrderDetailService.create both are
bare writes: when the stock decrement (write 1) fails, the call errors but
the inserted line persists and the stock is untouched.  In OrderService.crear
the order and its lines are inserted by a bare create issued before the
`prisma.$transaction` that wraps only the stock decrements: when the first
decrement fails, the transaction rolls back the stock but the created order
and its lines persist. -/
theorem c3_amended :
    (∀ (db : DB) (data : CreateOrdenCompraDetallePayload) (currentUser : AuthUser)
       (oc : OrdenCompra) (pd : ProductoDetalle),
      db.ordenCompras.find? (fun r => r.id == data.ordenCompraId) = some oc →
      db.productoDetalles.find? (fun r => r.id == data.productoDetalleId) = some pd →
      (currentUser.rol = Rol.ADMIN ∨
        OrderDetailService.autorizadoParaOrden db oc currentUser = true) →
      ¬ pd.stockActual < data.cantidad →
      ∃ newDetalle db2,
        OrderDetailService.createFaulty data currentUser db [1] =
          (Except.error "database write failed", db2) ∧
        db2.ordenCompraDetalles = db.ordenCompraDetalles ++ [newDetalle] ∧
        newDetalle.cantidad = data.cantidad ∧
        db2.productoDetalles = db.productoDetalles) ∧
    (∀ (db : DB) (data : CreateOrdenCompraPayload) (now : Nat) (orden : OrdenCompra)
       (dets : List OrdenCompraDetalle) (db2 : DB),
      OrderService.crear data now db = (Except.ok (orden, dets), db2) →
      ∃ db3,
        OrderService.crearFaulty data now db [1] =
          (Except.error "Error al crear la orden de compra: database write failed", db3) ∧
        db3.ordenCompras = db.ordenCompras ++ [orden] ∧
        db3.ordenCompraDetalles = db.ordenCompraDetalles ++ dets ∧
        db3.productoDetalles = db.productoDetalles) := by
  constructor
  · intro db data currentUser oc pd hoc hpd hauth hge
    have hcond : ¬ (currentUser.rol = Rol.CLIENTE ∧
        OrderDetailService.autorizadoParaOrden db oc currentUser = false) := by
      rcases hauth with h | h
      · intro hc
        rw [h] at hc
        cases hc.1
      · intro hc
        rw [h] at hc
        cases hc.2
    unfold OrderDetailService.createFaulty OrderDetailService.createPlan
    simp only [hoc, hpd]
    rw [if_neg hcond, if_neg hge]
    simp only [runPlan, execUnits_two_singles_fail_second]
    exact ⟨_, _, rfl, rfl, rfl, rfl⟩
  · intro db data now orden dets db2 h
    unfold OrderService.crear OrderService.crearFaulty at h
    cases hp : OrderService.crearPlan db data now with
    | error e =>
        rw [hp] at h
        simp [runPlan, OrderService.wrapCrearError] at h
    | ok p =>
        obtain ⟨r, units⟩ := p
        rw [hp, runPlan_ok_no_fail] at h
        obtain ⟨t, nds, hlen, hb, hr1, hr2, hunits⟩ :=
          crearPlan_ok_inv db data now r units hp
        unfold OrderService.wrapCrearError at h
        simp only [Prod.mk.injEq, Except.ok.injEq] at h
        obtain ⟨hr, hdb⟩ := h
        obtain ⟨d0, rest0, hdl⟩ : ∃ d0 rest0, data.detalles = d0 :: rest0 := by
          cases hdet : data.detalles with
          | nil => rw [hdet] at hlen; simp at hlen
          | cons a l => exact ⟨a, l, rfl⟩
        have hne := stockWrites_ne_nil db d0 rest0 t nds (by rw [← hdl]; exact hb)
        obtain ⟨w, ws, hws⟩ : ∃ w ws, OrderService.stockWrites db (d0 :: rest0) = w :: ws := by
          cases hsw : OrderService.stockWrites db (d0 :: rest0) with
          | nil => exact absurd hsw hne
          | cons w ws => exact ⟨w, ws, rfl⟩
        unfold OrderService.crearFaulty
        rw [hp, hunits, hdl, hws]
        simp only [runPlan, execUnits_single_then_tx_fail, OrderService.wrapCrearError]
        refine ⟨_, rfl, ?_, ?_, rfl⟩
        · have ho : orden = r.1 := by rw [hr]
          rw [ho, hr1]
        · have hd : dets = r.2 := by rw [hr]
          rw [hd, hr2]

/-- Witness for c3_amended on the concrete fixtures: the failing stock write
leaves the admin-created line of dbC1 persisted, and the failing decrement
transaction of the concrete crear run leaves the created order and line of
dbC8 persisted with the stock untouched. -/
theorem c3_amended_witness :
    (∃ newDetalle db2,
      OrderDetailService.createFaulty dataC1 adminW dbC1 [1] =
        (Except.error "database write failed", db2) ∧
      db2.ordenCompraDetalles = dbC1.ordenCompraDetalles ++ [newDetalle] ∧
      newDetalle.cantidad = dataC1.cantidad ∧
      db2.productoDetalles = dbC1.productoDetalles) ∧
    (∃ db3,
      OrderService.crearFaulty dataC8 7 dbC8 [1] =
        (Except.error "Error al crear la orden de compra: database write failed", db3) ∧
      db3.ordenCompras = dbC8.ordenCompras ++ [ordenC8] ∧
      db3.ordenCompraDetalles = dbC8.ordenCompraDetalles ++ [detC8] ∧
      db3.productoDetalles = dbC8.productoDetalles) :=
  ⟨c3_amended.1 dbC1 dataC1 adminW ordenW pdW (by decide) (by decide)
      (Or.inl rfl) (by decide),
   c3_amended.2 dbC8 dataC8 7 ordenC8 [detC8] _ rfl⟩

end FinalPrisma
